import Mathlib

/-!
Shallow embedding of `src/task1_image_metadata_analysis/code.py` (image
metadata analysis: EXIF extraction, GPS DMS-to-decimal conversion, optional
OCR, report writing).  Python floats are modelled as rationals (`ℚ`); Python
`None` as `Option.none`; dictionaries are modelled by records of the lookups
the code performs.  Each definition transcribes the corresponding Python
function; exceptions are modelled by `Option`/`Except` results.
-/

namespace ImageMeta

/-- A value that can appear as a component of a GPS DMS triple.
`rat` models an object with `numerator`/`denominator` attributes (PIL's
IFDRational); `pair` models a 2-tuple `(num, den)`; `num` models any other
value that converts to a float successfully; `junk` models a value on which
`float(x)` raises. -/
inductive ExifVal where
  | rat (num den : Int)
  | pair (num den : Int)
  | num (q : ℚ)
  | junk
deriving DecidableEq

/-- `_rational_to_float` (code.py lines 34-44): converts PIL
rationals/tuples to float safely.  An object with numerator/denominator
attributes divides as floats, so a zero denominator raises
`ZeroDivisionError`, caught by the blanket `except` which returns `None`
(modelled `none`).  A 2-tuple returns `0.0` directly when the denominator is
falsy (zero).  A value on which `float` raises also yields `None`. -/
def _rational_to_float : ExifVal → Option ℚ
  | .rat n d => if d = 0 then none else some ((n : ℚ) / (d : ℚ))
  | .pair n d => if d = 0 then some 0 else some ((n : ℚ) / (d : ℚ))
  | .num q => some q
  | .junk => none

/-- Python `x or default` applied to an optional float: `None` and `0.0` are
falsy, any other float is truthy and returned unchanged. -/
def pyFloatOr (x : Option ℚ) (dflt : ℚ) : ℚ :=
  match x with
  | none => dflt
  | some q => if q = 0 then dflt else q

/-- `_dms_to_decimal` (code.py lines 46-56): converts a
degrees/minutes/seconds tuple plus hemisphere reference to signed decimal
degrees.  `if not dms or len(dms) != 3: return None` rejects `None`, the
empty sequence, and any sequence whose length is not 3; each component is
converted with `_rational_to_float(...) or 0.0`; the result is negated when
the reference is `"S"` or `"W"`. -/
def _dms_to_decimal (dms : Option (List ExifVal)) (ref : String) : Option ℚ :=
  match dms with
  | some [x0, x1, x2] =>
      let d := pyFloatOr (_rational_to_float x0) 0
      let m := pyFloatOr (_rational_to_float x1) 0
      let s := pyFloatOr (_rational_to_float x2) 0
      let dec := d + (m / 60) + (s / 3600)
      some (if ref = "S" ∨ ref = "W" then -dec else dec)
  | _ => none

/-- `True` exactly on a `rat` or `pair` value whose denominator is zero. -/
def zeroDenominator : ExifVal → Bool
  | .rat _ d => d = 0
  | .pair _ d => d = 0
  | _ => false

/-- The GPS sub-dictionary after tag-name mapping (`gps_named`, code.py line
74), restricted to the lookups the code performs: the two reference letters,
the two raw DMS triples, and the string-rendered raw map kept for display.
A missing key is `none`; Python truthiness of a present value is checked
separately (`≠ ""` for strings, `≠ []` for sequences). -/
structure GpsDict where
  latRef : Option String
  lonRef : Option String
  latRaw : Option (List ExifVal)
  lonRaw : Option (List ExifVal)
  rawPairs : List (String × String)
deriving DecidableEq

/-- The parsed GPS record (`gps_parsed`, code.py lines 85-89). -/
structure GpsParsed where
  raw : List (String × String)
  latitude_decimal : Option ℚ
  longitude_decimal : Option ℚ
deriving DecidableEq

/-- The `GPSInfo` entry of the named EXIF mapping: either a mapping (a dict)
or some other, malformed value (`isinstance(gps_info, dict)` is false). -/
inductive GpsInfoVal where
  | dict (g : GpsDict)
  | notDict
deriving DecidableEq

/-- The named EXIF mapping (`exif_named`, code.py lines 65-68), restricted
to the lookups the code performs.  A missing tag is `none`. -/
structure ExifDict where
  make : Option String
  model : Option String
  dateTimeOriginal : Option String
  dateTime : Option String
  gpsInfo : Option GpsInfoVal
deriving DecidableEq

/-- The named EXIF mapping with no entries (every lookup misses). -/
def emptyExifDict : ExifDict :=
  { make := none, model := none, dateTimeOriginal := none,
    dateTime := none, gpsInfo := none }

/-- The value returned by `extract_exif`: the named EXIF mapping plus the
parsed GPS record.  The Python `gps` value is a dict that is either empty
(modelled `none`) or the 3-key parsed record (modelled `some`). -/
structure ExtractResult where
  exif : ExifDict
  gps : Option GpsParsed
deriving DecidableEq

/-- The GPS-parsing body of `extract_exif` (code.py lines 75-89): each
decimal field is computed by `_dms_to_decimal` only when both the raw triple
and the reference letter are present and truthy (`if lat_raw and lat_ref:`);
otherwise it stays `None`. -/
def parseGps (g : GpsDict) : GpsParsed :=
  { raw := g.rawPairs,
    latitude_decimal :=
      match g.latRaw, g.latRef with
      | some raw, some ref =>
          if raw ≠ [] ∧ ref ≠ "" then _dms_to_decimal (some raw) ref else none
      | _, _ => none,
    longitude_decimal :=
      match g.lonRaw, g.lonRef with
      | some raw, some ref =>
          if raw ≠ [] ∧ ref ≠ "" then _dms_to_decimal (some raw) ref else none
      | _, _ => none }

/-- `extract_exif` (code.py lines 58-94).  `none` input models an image with
an empty or absent EXIF block (`if not exif_raw:`), which returns empty
mappings.  Otherwise the GPS record is parsed only when the `GPSInfo` entry
is present and is a mapping; a malformed entry leaves the gps dict empty. -/
def extract_exif : Option ExifDict → ExtractResult
  | none => { exif := emptyExifDict, gps := none }
  | some e =>
      { exif := e,
        gps :=
          match e.gpsInfo with
          | some (GpsInfoVal.dict g) => some (parseGps g)
          | _ => none }

/-- OcrResult (`result` dict of `try_ocr`, code.py line 98). -/
structure OcrResult where
  text : Option String
  language : Option String
  note : Option String
deriving DecidableEq

/-- Python whitespace for `str.strip()` (ASCII subset). -/
def pyIsSpace (c : Char) : Bool :=
  c = ' ' ∨ c = '\t' ∨ c = '\n' ∨ c = '\r' ∨ c = '\x0b' ∨ c = '\x0c'

/-- Python `str.strip()`: drop leading and trailing whitespace. -/
def pyStrip (s : String) : String :=
  String.mk (((s.toList.dropWhile pyIsSpace).reverse.dropWhile pyIsSpace).reverse)

/-- `try_ocr` (code.py lines 96-119).  The runtime environment is passed
explicitly: `pytessAvail` models `pytesseract is not None`; `ocrOutcome`
models the outcome of `pytesseract.image_to_string` on the
orientation-corrected image (`Except.error e` models a raised exception
rendered as the message `e`); `detectAvail` models `detect is not None`;
`detectOutcome` models the language-detection call (`Except.error ()` models
a raised exception). -/
def try_ocr (pytessAvail : Bool) (ocrOutcome : Except String String)
    (detectAvail : Bool) (detectOutcome : String → Except Unit String) :
    OcrResult :=
  if pytessAvail = false then
    { text := none, language := none,
      note := some "pytesseract not installed; skip OCR." }
  else
    match ocrOutcome with
    | Except.error e =>
        { text := none, language := none, note := some ("OCR failed: " ++ e) }
    | Except.ok rawText =>
        let text := pyStrip rawText
        let textField := if text ≠ "" then some text else none
        if text ≠ "" ∧ detectAvail = true then
          match detectOutcome text with
          | Except.ok lang =>
              { text := textField, language := some lang, note := none }
          | Except.error _ =>
              { text := textField, language := none, note := none }
        else if text ≠ "" ∧ detectAvail = false then
          { text := textField, language := none,
            note := some "langdetect not installed; language not detected." }
        else
          { text := textField, language := none, note := none }

/-- The `file` sub-record of the analysis result (code.py lines 124-130).
`format` is optional because `img.format` can be `None`. -/
structure FileRec where
  name : String
  path : String
  format : Option String
  mode : String
  width : Nat
  height : Nat
deriving DecidableEq

/-- The `summary` sub-record (code.py lines 137-143). -/
structure Summary where
  camera_make : Option String
  camera_model : Option String
  datetime_original : Option String
  has_gps : Bool
deriving DecidableEq

/-- Python `a or b` on optional strings: `None` and `""` are falsy. -/
def pyStrOr (a b : Option String) : Option String :=
  match a with
  | some s => if s ≠ "" then some s else b
  | none => b

/-- The full analysis result (`info` dict of `analyze_image`). -/
structure ImageData where
  file : FileRec
  exif : ExifDict
  gps : Option GpsParsed
  summary : Summary
  ocr : Option OcrResult
deriving DecidableEq

/-- `analyze_image` (code.py lines 121-148), with the externally supplied
parts passed explicitly: `file` models the fields read from the opened
image, `exifRaw` models `image.getexif()`, and `ocrRes` models the value
`try_ocr` returns when `do_ocr` is set.  The summary's `has_gps` is
`bool(gps.get("latitude_decimal") is not None and
gps.get("longitude_decimal") is not None)`; a lookup on the empty gps dict
yields `None`. -/
def analyze_image (file : FileRec) (exifRaw : Option ExifDict)
    (do_ocr : Bool) (ocrRes : OcrResult) : ImageData :=
  let ex := extract_exif exifRaw
  { file := file,
    exif := ex.exif,
    gps := ex.gps,
    summary :=
      { camera_make := ex.exif.make,
        camera_model := ex.exif.model,
        datetime_original := pyStrOr ex.exif.dateTimeOriginal ex.exif.dateTime,
        has_gps := (ex.gps.bind GpsParsed.latitude_decimal).isSome &&
                   (ex.gps.bind GpsParsed.longitude_decimal).isSome },
    ocr := if do_ocr then some ocrRes else none }

/-- Python `str(x)` rendering of an optional string: `None` renders as the
text `"None"`. -/
def showOptStr : Option String → String
  | none => "None"
  | some s => s

/-- Python `str(x)` rendering of an optional float inside an f-string;
`None` renders as `"None"`, a number by its decimal text (stand-in for
float `repr`). -/
def showOptQ : Option ℚ → String
  | none => "None"
  | some q => toString q

/-- Python `str(b)` of a bool: `"True"` / `"False"`. -/
def pyShowBool : Bool → String
  | true => "True"
  | false => "False"

/-- The `- GPS (decimal): ...` report line (code.py line 172). -/
def gpsDecimalLine (gp : GpsParsed) : String :=
  "- GPS (decimal): " ++ showOptQ gp.latitude_decimal ++ ", " ++
    showOptQ gp.longitude_decimal

/-- The lines of the plain-text report built by `write_report` (code.py
lines 155-182), in order: header and file section, summary section, the GPS
decimal line guarded by `if gps:` (dict non-emptiness, `none` here), and the
OCR section guarded by `"ocr" in data`, whose extracted-text block is
guarded by `if o.get("text"):` (truthiness: present and non-empty). -/
def report_lines (data : ImageData) : List String :=
  let f := data.file
  let s := data.summary
  let base : List String :=
    ["# Image Metadata Report: " ++ f.name,
     "",
     "## File",
     "- Path: " ++ f.path,
     "- Format: " ++ showOptStr f.format,
     "- Mode: " ++ f.mode,
     "- Size: " ++ toString f.width ++ "x" ++ toString f.height,
     "",
     "## Summary",
     pyStrip ("- Camera: " ++ showOptStr s.camera_make ++ " " ++
       showOptStr s.camera_model),
     "- Date/Time: " ++ showOptStr s.datetime_original,
     "- GPS present: " ++ pyShowBool s.has_gps]
  let gpsPart : List String :=
    match data.gps with
    | some gp => [gpsDecimalLine gp]
    | none => []
  let ocrPart : List String :=
    match data.ocr with
    | some o =>
        ["", "## OCR",
         "- Language: " ++ showOptStr o.language,
         "- Note: " ++ showOptStr o.note] ++
        (match o.text with
         | some t => if t ≠ "" then ["", "### Extracted Text", t] else []
         | none => [])
    | none => []
  base ++ gpsPart ++ ocrPart

/-- The text written to the report file: the lines joined by newlines
(code.py line 184). -/
def report_text (data : ImageData) : String :=
  String.intercalate "\n" (report_lines data)

/-- The parsed command-line arguments (code.py lines 187-191). -/
structure CliArgs where
  image : String
  ocr : Bool
  out : String
deriving DecidableEq

/-- The observable effects of one run of `main`. -/
structure MainEffect where
  exitCode : Nat
  stderr : Option String
  written : Option (String × String)
deriving DecidableEq

/-- `main` (code.py lines 186-198) as a function of the environment:
`pathExists` models `os.path.exists`, and `analyze` models
`analyze_image` on the opened image (path and `--ocr` flag to analysis
result).  A missing input path prints to stderr and exits with code 1
before any analysis or write; otherwise the report file is written at
`args.out` (guarded by `if out_path:` in `write_report`, so an empty path
writes nothing) and the exit code is 0. -/
def main_run (pathExists : String → Bool) (analyze : String → Bool → ImageData)
    (args : CliArgs) : MainEffect :=
  if pathExists args.image = false then
    { exitCode := 1,
      stderr := some ("Error: file not found: " ++ args.image),
      written := none }
  else
    let data := analyze args.image args.ocr
    { exitCode := 0,
      stderr := none,
      written := if args.out ≠ "" then some (args.out, report_text data) else none }

/-! ## Concrete sample data (used by witnesses and counterexamples) -/

/-- A GPS dictionary with partial data on both axes: a latitude triple with
no reference letter, and a longitude reference with no triple. -/
def partialGpsDict : GpsDict :=
  { latRef := none, lonRef := some "E",
    latRaw := some [ExifVal.pair 48 1, ExifVal.pair 51 1, ExifVal.pair 29 1],
    lonRaw := none,
    rawPairs := [("GPSLatitude", "(48.0, 51.0, 29.0)"),
                 ("GPSLongitudeRef", "E")] }

/-- Named EXIF mapping whose GPSInfo entry is `partialGpsDict`. -/
def partialGpsExif : ExifDict :=
  { make := none, model := none, dateTimeOriginal := none, dateTime := none,
    gpsInfo := some (GpsInfoVal.dict partialGpsDict) }

/-- A concrete file record for sample runs. -/
def sampleFile : FileRec :=
  { name := "sample.jpg", path := "/tmp/sample.jpg", format := some "JPEG",
    mode := "RGB", width := 2, height := 2 }

/-- Analysis of an image with no EXIF block at all. -/
def sampleNoGpsData : ImageData :=
  analyze_image sampleFile none false
    { text := none, language := none, note := none }

/-- Analysis of an image whose GPSInfo mapping is present but partial, so
the gps record is non-empty while both decimal coordinates are null. -/
def partialGpsData : ImageData :=
  analyze_image sampleFile (some partialGpsExif) false
    { text := none, language := none, note := none }

/-! ## Decomposition of the report lines (for stating what is emitted) -/

/-- The report lines before the conditional GPS decimal line: header, file
section, and summary section (code.py lines 158-169). -/
def reportBaseLines (data : ImageData) : List String :=
  ["# Image Metadata Report: " ++ data.file.name,
   "",
   "## File",
   "- Path: " ++ data.file.path,
   "- Format: " ++ showOptStr data.file.format,
   "- Mode: " ++ data.file.mode,
   "- Size: " ++ toString data.file.width ++ "x" ++ toString data.file.height,
   "",
   "## Summary",
   pyStrip ("- Camera: " ++ showOptStr data.summary.camera_make ++ " " ++
     showOptStr data.summary.camera_model),
   "- Date/Time: " ++ showOptStr data.summary.datetime_original,
   "- GPS present: " ++ pyShowBool data.summary.has_gps]

/-- The report lines of the OCR section, emitted only when OCR was
requested (code.py lines 173-182). -/
def reportOcrLines (data : ImageData) : List String :=
  match data.ocr with
  | some o =>
      ["", "## OCR",
       "- Language: " ++ showOptStr o.language,
       "- Note: " ++ showOptStr o.note] ++
      (match o.text with
       | some t => if t ≠ "" then ["", "### Extracted Text", t] else []
       | none => [])
  | none => []

/-! ## Helper lemmas -/

/-- Python `x or 0.0` returns the value of a successful conversion unchanged
(a converted `0.0` is falsy, but the fallback is also `0.0`). -/
theorem pyFloatOr_some (q : ℚ) : pyFloatOr (some q) 0 = q := by
  by_cases h : q = 0 <;> simp [pyFloatOr, h]

/-- A component that fails conversion or has a zero denominator contributes
the value `0` after `_rational_to_float(...) or 0.0`. -/
theorem pyFloatOr_failed (x : ExifVal)
    (h : _rational_to_float x = none ∨ zeroDenominator x = true) :
    pyFloatOr (_rational_to_float x) 0 = 0 := by
  rcases h with h | h
  · simp [pyFloatOr, h]
  · cases x <;> simp_all [zeroDenominator, _rational_to_float, pyFloatOr]

/-! ## Claims -/

/-- C1: for every 3-element sequence `(d, m, s)` whose components all
convert successfully to numbers, and every hemisphere reference,
`_dms_to_decimal` returns `d + m/60 + s/3600`, negated exactly when the
reference is `"S"` or `"W"` (so unchanged in sign for `"N"`/`"E"`, which
fall in the else branch). -/
theorem dms_to_decimal_valid (x0 x1 x2 : ExifVal) (d m s : ℚ) (ref : String)
    (h0 : _rational_to_float x0 = some d)
    (h1 : _rational_to_float x1 = some m)
    (h2 : _rational_to_float x2 = some s) :
    _dms_to_decimal (some [x0, x1, x2]) ref =
      some (if ref = "S" ∨ ref = "W" then -(d + m / 60 + s / 3600)
            else d + m / 60 + s / 3600) := by
  simp [_dms_to_decimal, h0, h1, h2, pyFloatOr_some]

/-- Witness for C1 at the spec's example: latitude `(48, 51, 29)` with
reference `"S"`. -/
theorem dms_to_decimal_valid_witness :
    _dms_to_decimal
        (some [ExifVal.pair 48 1, ExifVal.pair 51 1, ExifVal.pair 29 1]) "S" =
      some (if "S" = "S" ∨ "S" = "W"
            then -((48 : ℚ) + 51 / 60 + 29 / 3600)
            else (48 : ℚ) + 51 / 60 + 29 / 3600) :=
  dms_to_decimal_valid _ _ _ 48 51 29 "S"
    (by norm_num [_rational_to_float]) (by norm_num [_rational_to_float])
    (by norm_num [_rational_to_float])

/-- C3: for every 3-element input in which some component fails numeric
conversion or is a rational with a zero denominator, `_dms_to_decimal`
still returns a value (does not raise), and that value is the one obtained
with the offending component replaced by `0`. -/
theorem dms_failed_component_as_zero (x0 x1 x2 : ExifVal) (i : Fin 3)
    (ref : String)
    (hf : _rational_to_float ([x0, x1, x2].get i) = none ∨
          zeroDenominator ([x0, x1, x2].get i) = true) :
    (_dms_to_decimal (some [x0, x1, x2]) ref).isSome = true ∧
    _dms_to_decimal (some [x0, x1, x2]) ref =
      _dms_to_decimal (some ([x0, x1, x2].set i (ExifVal.num 0))) ref := by
  have hz := pyFloatOr_failed _ hf
  have hnum : pyFloatOr (_rational_to_float (ExifVal.num 0)) 0 = 0 := rfl
  fin_cases i <;>
    · simp only [List.get] at hz
      refine ⟨rfl, ?_⟩
      simp only [_dms_to_decimal, List.set]
      rw [hz, hnum]

/-- Witness for C3: first component unconvertible (`junk`). -/
theorem dms_failed_component_witness :
    (_dms_to_decimal
        (some [ExifVal.junk, ExifVal.pair 51 1, ExifVal.pair 29 1])
        "N").isSome = true ∧
    _dms_to_decimal
        (some [ExifVal.junk, ExifVal.pair 51 1, ExifVal.pair 29 1]) "N" =
      _dms_to_decimal
        (some ([ExifVal.junk, ExifVal.pair 51 1,
                ExifVal.pair 29 1].set 0 (ExifVal.num 0))) "N" :=
  dms_failed_component_as_zero _ _ _ 0 "N" (Or.inl rfl)

/-- C4: for every input sequence that is missing (`None`), empty, or of
length other than 3, `_dms_to_decimal` returns `None` (and, being a total
function, never raises). -/
theorem dms_invalid_shape (dms : Option (List ExifVal)) (ref : String)
    (h : dms = none ∨ ∃ l, dms = some l ∧ l.length ≠ 3) :
    _dms_to_decimal dms ref = none := by
  rcases h with rfl | ⟨l, rfl, hl⟩
  · rfl
  · rcases l with _ | ⟨a, _ | ⟨b, _ | ⟨c, _ | ⟨d, t⟩⟩⟩⟩ <;>
      first
      | rfl
      | exact absurd rfl hl

/-- Witness for C4 at a 1-element sequence. -/
theorem dms_invalid_shape_witness :
    _dms_to_decimal (some [ExifVal.num 1]) "N" = none :=
  dms_invalid_shape (some [ExifVal.num 1]) "N"
    (Or.inr ⟨[ExifVal.num 1], rfl, by decide⟩)

/-- The latitude decimal of a parsed GPS record is absent whenever the raw
triple or the reference letter is missing. -/
theorem parseGps_lat_none (g : GpsDict)
    (h : g.latRaw = none ∨ g.latRef = none) :
    (parseGps g).latitude_decimal = none := by
  rcases h with h | h
  · simp [parseGps, h]
  · rcases hx : g.latRaw with _ | raw <;> simp [parseGps, hx, h]

/-- The longitude decimal of a parsed GPS record is absent whenever the raw
triple or the reference letter is missing. -/
theorem parseGps_lon_none (g : GpsDict)
    (h : g.lonRaw = none ∨ g.lonRef = none) :
    (parseGps g).longitude_decimal = none := by
  rcases h with h | h
  · simp [parseGps, h]
  · rcases hx : g.lonRaw with _ | raw <;> simp [parseGps, hx, h]

/-- C2: in every run of `analyze_image`, the summary field `has_gps` is true
if and only if the gps record carries both `latitude_decimal` and
`longitude_decimal` present and non-null. -/
theorem has_gps_iff_both_decimals (file : FileRec) (exifRaw : Option ExifDict)
    (do_ocr : Bool) (ocrRes : OcrResult) :
    (analyze_image file exifRaw do_ocr ocrRes).summary.has_gps = true ↔
      ∃ gp, (analyze_image file exifRaw do_ocr ocrRes).gps = some gp ∧
        gp.latitude_decimal.isSome = true ∧
        gp.longitude_decimal.isSome = true := by
  cases h : (extract_exif exifRaw).gps with
  | none => simp [analyze_image, h]
  | some gp => simp [analyze_image, h]

/-- C5: a GPS sub-record with only partial data — a raw triple present
without its reference letter, or a reference letter present without its raw
triple — yields no decimal coordinate for that axis in the record
`extract_exif` returns. -/
theorem gps_partial_axis_absent (e : ExifDict) (g : GpsDict) (gp : GpsParsed)
    (hg : e.gpsInfo = some (GpsInfoVal.dict g))
    (hgp : (extract_exif (some e)).gps = some gp) :
    ((g.latRaw.isSome = true ∧ g.latRef = none) ∨
       (g.latRef.isSome = true ∧ g.latRaw = none) →
         gp.latitude_decimal = none) ∧
    ((g.lonRaw.isSome = true ∧ g.lonRef = none) ∨
       (g.lonRef.isSome = true ∧ g.lonRaw = none) →
         gp.longitude_decimal = none) := by
  have hgp' : gp = parseGps g := by
    simp [extract_exif, hg] at hgp
    exact hgp.symm
  subst hgp'
  constructor
  · rintro (⟨_, href⟩ | ⟨_, hraw⟩)
    · exact parseGps_lat_none g (Or.inr href)
    · exact parseGps_lat_none g (Or.inl hraw)
  · rintro (⟨_, href⟩ | ⟨_, hraw⟩)
    · exact parseGps_lon_none g (Or.inr href)
    · exact parseGps_lon_none g (Or.inl hraw)

/-- Witness for C5: GPSInfo with a latitude triple but no reference letter
and a longitude reference but no triple. -/
theorem gps_partial_axis_absent_witness :
    ((partialGpsDict.latRaw.isSome = true ∧ partialGpsDict.latRef = none) ∨
       (partialGpsDict.latRef.isSome = true ∧ partialGpsDict.latRaw = none) →
         (parseGps partialGpsDict).latitude_decimal = none) ∧
    ((partialGpsDict.lonRaw.isSome = true ∧ partialGpsDict.lonRef = none) ∨
       (partialGpsDict.lonRef.isSome = true ∧ partialGpsDict.lonRaw = none) →
         (parseGps partialGpsDict).longitude_decimal = none) :=
  gps_partial_axis_absent partialGpsExif partialGpsDict
    (parseGps partialGpsDict) rfl rfl

/-- C6: when OCR is requested but the engine is unavailable, `try_ocr`
returns `text = None`, `language = None`, and the non-empty diagnostic note
`"pytesseract not installed; skip OCR."`, without raising. -/
theorem try_ocr_unavailable (ocrOutcome : Except String String)
    (detectAvail : Bool) (detectOutcome : String → Except Unit String) :
    try_ocr false ocrOutcome detectAvail detectOutcome =
      { text := none, language := none,
        note := some "pytesseract not installed; skip OCR." } ∧
    "pytesseract not installed; skip OCR." ≠ "" :=
  ⟨rfl, by decide⟩

/-- C8: when the extracted OCR text consists only of whitespace (or is
empty), `try_ocr` reports the text field as `None`, never as an empty or
whitespace-only string. -/
theorem try_ocr_whitespace_text_absent (raw : String) (detectAvail : Bool)
    (detectOutcome : String → Except Unit String)
    (hw : ∀ c ∈ raw.toList, pyIsSpace c = true) :
    (try_ocr true (Except.ok raw) detectAvail detectOutcome).text = none := by
  have hs : pyStrip raw = "" := by
    have h1 : raw.toList.dropWhile pyIsSpace = [] :=
      List.dropWhile_eq_nil_iff.mpr hw
    unfold pyStrip
    rw [h1]
    rfl
  simp [try_ocr, hs]

/-- Witness for C8 at the whitespace-only string `"  \n\t "`. -/
theorem try_ocr_whitespace_witness :
    (try_ocr true (Except.ok "  \n\t ") false
        (fun _ => Except.error ())).text = none :=
  try_ocr_whitespace_text_absent "  \n\t " false (fun _ => Except.error ())
    (by decide)

/-- C10: when extraction succeeds with non-blank text, language detection is
available, and the detection call itself fails, `try_ocr` returns the
stripped text with `language = None` and `note = None` — no diagnostic is
recorded, unlike the missing-capability branches which set a note. -/
theorem try_ocr_detect_failure_silent (raw : String)
    (detectOutcome : String → Except Unit String)
    (hne : pyStrip raw ≠ "")
    (hfail : detectOutcome (pyStrip raw) = Except.error ()) :
    try_ocr true (Except.ok raw) true detectOutcome =
      { text := some (pyStrip raw), language := none, note := none } := by
  simp [try_ocr, hne, hfail]

/-- Witness for C10 at the text `"hola"` with an always-failing detector. -/
theorem try_ocr_detect_failure_witness :
    try_ocr true (Except.ok "hola") true (fun _ => Except.error ()) =
      { text := some (pyStrip "hola"), language := none, note := none } :=
  try_ocr_detect_failure_silent "hola" (fun _ => Except.error ())
    (by decide) rfl

/-- C7: when the positional image path does not exist, `main` exits with
code 1 after printing an error to standard error, and writes nothing to the
configured output path. -/
theorem main_missing_input (pathExists : String → Bool)
    (analyze : String → Bool → ImageData) (args : CliArgs)
    (h : pathExists args.image = false) :
    main_run pathExists analyze args =
      { exitCode := 1,
        stderr := some ("Error: file not found: " ++ args.image),
        written := none } := by
  simp [main_run, h]

/-- Witness for C7: a run whose input path never exists. -/
theorem main_missing_input_witness :
    main_run (fun _ => false) (fun _ _ => sampleNoGpsData)
        { image := "missing.jpg", ocr := false, out := "output.txt" } =
      { exitCode := 1,
        stderr := some ("Error: file not found: " ++ "missing.jpg"),
        written := none } :=
  main_missing_input (fun _ => false) (fun _ _ => sampleNoGpsData)
    { image := "missing.jpg", ocr := false, out := "output.txt" } rfl

/-- Counterexample to C9 as stated: in the run `partialGpsData` both decimal
coordinates are absent, yet the report still contains the decimal-GPS line
(with `None` placeholders), because `write_report` guards the line with
`if gps:` (dict non-emptiness) rather than with presence of the decimal
values. -/
theorem report_gps_line_cex :
    (partialGpsData.gps.bind GpsParsed.latitude_decimal = none ∧
     partialGpsData.gps.bind GpsParsed.longitude_decimal = none) ∧
    "- GPS (decimal): None, None" ∈ report_lines partialGpsData := by
  decide

/-- C9 (amended): the decimal-GPS line is emitted in the report exactly when
the gps sub-record is non-empty (a GPSInfo mapping was present): when the
record is non-empty the line appears — with `None` in place of any null
coordinate — and when the record is empty the report is exactly the base
and OCR sections with no such line. -/
theorem report_gps_line_iff_gps_nonempty (data : ImageData) :
    (∀ gp, data.gps = some gp →
        report_lines data =
          reportBaseLines data ++ [gpsDecimalLine gp] ++
            reportOcrLines data) ∧
    (data.gps = none →
        report_lines data = reportBaseLines data ++ reportOcrLines data) := by
  constructor
  · intro gp h
    simp [report_lines, reportBaseLines, reportOcrLines, h]
  · intro h
    simp [report_lines, reportBaseLines, reportOcrLines, h]

/-- Witness for the amended C9, at a run with a non-empty gps record and at
a run with an empty one. -/
theorem report_gps_line_iff_witness :
    (report_lines partialGpsData =
      reportBaseLines partialGpsData ++
        [gpsDecimalLine (parseGps partialGpsDict)] ++
        reportOcrLines partialGpsData) ∧
    (report_lines sampleNoGpsData =
      reportBaseLines sampleNoGpsData ++ reportOcrLines sampleNoGpsData) :=
  ⟨(report_gps_line_iff_gps_nonempty partialGpsData).1
      (parseGps partialGpsDict) rfl,
   (report_gps_line_iff_gps_nonempty sampleNoGpsData).2 rfl⟩

end ImageMeta
